import Mathlib

/-!
# The standalone provider of the worker runner

A shallow embedding of `provider/standalone/standalone.go`.

* Go `map[string]string` is `StrMap`, a finite map: keys are unique and the
  entries carry no order, so two maps are equal exactly when they hold the same
  entries.  A nil map and an empty map read the same and are both `∅`.
* A method that mutates `*run.State` and returns `error` is a function from the
  state before the call to an `Exit` and the state after it.  `Exit.panicked`
  is a run-time panic (here: a failed unchecked type assertion).
* `cfg.RunnerConfig`, `cfg.ProviderConfig` and `run.State` are declared outside
  the translated file; their shape is taken from the use the provider makes of
  them and from the specification's data model.
-/

namespace Standalone

/-! ## Data model -/

/-- Go `map[string]string`. -/
abbrev StrMap := Finmap (fun _ : String => String)

/-- A dynamic Go value held in an `interface{}`, as found in the raw provider
configuration document (`map[string]interface{}`).  The constructors are the
dynamic types a decoded document, or a caller building the document by hand,
can put there; `strMap` is the dynamic type `map[string]string`, `ifaceMap`
is `map[string]interface{}`. -/
inductive Value where
  | null
  | bool (b : Bool)
  | num (n : Int)
  | str (s : String)
  | list (xs : List Value)
  | strMap (m : StrMap)
  | ifaceMap (m : List (String × Value))

/-- The `error` values the provider can return: those of unpacking. -/
inductive Error where
  | notFound (name : String)
  | wrongType (name : String)
  deriving DecidableEq, Repr

/-- The struct `standaloneProviderConfig`. -/
structure standaloneProviderConfig where
  RootURL : String
  ClientID : String
  AccessToken : String
  WorkerPoolID : String
  WorkerGroup : String
  WorkerID : String
  deriving DecidableEq, Repr

/-- Modelled from the spec: the struct `cfg.ProviderConfig` is declared outside
the translated file.  The provider reads its field `Data`, the raw
configuration document. -/
structure ProviderConfig where
  ProviderType : String
  Data : Finmap (fun _ : String => Value)

/-- Modelled from the spec: the struct `cfg.RunnerConfig` is declared outside
the translated file.  The provider reads its field `Provider` only. -/
structure RunnerConfig where
  Provider : ProviderConfig

/-- Modelled from the spec: the credential bundle of the run state (client
identifier, access token, optional certificate), declared outside the
translated file.  An absent certificate is the empty string. -/
structure Credentials where
  ClientID : String
  AccessToken : String
  Certificate : String
  deriving DecidableEq

/-- Modelled from the spec: the struct `run.State` is declared outside the
translated file.  Its fields are those of the specification's RunState. -/
structure State where
  RootURL : String
  Credentials : Credentials
  WorkerPoolID : String
  WorkerGroup : String
  WorkerID : String
  WorkerLocation : StrMap
  ProviderMetadata : StrMap

/-- Two states are equal exactly when they agree field for field. -/
theorem State.ext_fields (a b : State) :
    (a.RootURL = b.RootURL ∧ a.Credentials = b.Credentials ∧ a.WorkerPoolID = b.WorkerPoolID ∧
      a.WorkerGroup = b.WorkerGroup ∧ a.WorkerID = b.WorkerID ∧
      a.WorkerLocation = b.WorkerLocation ∧ a.ProviderMetadata = b.ProviderMetadata) ↔ a = b := by
  constructor
  · rintro ⟨h1, h2, h3, h4, h5, h6, h7⟩
    cases a; cases b; simp_all
  · rintro rfl
    exact ⟨rfl, rfl, rfl, rfl, rfl, rfl, rfl⟩

instance : DecidableEq State := fun a b => decidable_of_iff _ (State.ext_fields a b)

/-- The struct `StandaloneProvider`. -/
structure StandaloneProvider where
  runnercfg : RunnerConfig

/-- How a call ends: it returns an `error` (`none` is Go's `nil`), or it
panics. -/
inductive Exit where
  | returned (err : Option Error)
  | panicked
  deriving DecidableEq, Repr

/-- The state the orchestrator creates at process start: Go's zero value. -/
def State.fresh : State :=
  { RootURL := "", Credentials := { ClientID := "", AccessToken := "", Certificate := "" },
    WorkerPoolID := "", WorkerGroup := "", WorkerID := "",
    WorkerLocation := ∅, ProviderMetadata := ∅ }

/-! ## Unpacking the provider configuration -/

/-- Modelled from the spec: one required setting of the typed view.  A setting
that is absent fails unpacking, and so does one that is not a string; nothing
is defaulted. -/
def unpackField (data : Finmap (fun _ : String => Value)) (name : String) :
    Except Error String :=
  match data.lookup name with
  | none => .error (.notFound name)
  | some (.str s) => .ok s
  | some _ => .error (.wrongType name)

/-- Modelled from the spec: `cfg.ProviderConfig.Unpack` is not in the
translated file.  Unpacking either succeeds, populating the settings value, or
fails with an error; the settings it requires are the six the provider's
`Usage` text lists, under the names given there. -/
def ProviderConfig.Unpack (c : ProviderConfig) : Except Error standaloneProviderConfig := do
  let rootURL ← unpackField c.Data "rootURL"
  let clientID ← unpackField c.Data "clientID"
  let accessToken ← unpackField c.Data "accessToken"
  let workerPoolID ← unpackField c.Data "workerPoolID"
  let workerGroup ← unpackField c.Data "workerGroup"
  let workerID ← unpackField c.Data "workerID"
  pure { RootURL := rootURL, ClientID := clientID, AccessToken := accessToken,
         WorkerPoolID := workerPoolID, WorkerGroup := workerGroup, WorkerID := workerID }

/-! ## The `for k, v := range src { dst[k] = v }` loop -/

/-- One iteration of the loop body, `dst[k] = v`. -/
def storeEntry (dst : StrMap) (e : Sigma (fun _ : String => String)) : StrMap :=
  dst.insert e.1 e.2

/-- The loop run over the entries in one given order. -/
def storeEntries (dst : StrMap) (entries : List (Sigma (fun _ : String => String))) : StrMap :=
  entries.foldl storeEntry dst

/-- Reading the map the loop leaves: a key of the source has the source's
value, any other key keeps the destination's. -/
theorem lookup_storeEntries (k : String) :
    ∀ (entries : List (Sigma (fun _ : String => String))) (dst : StrMap),
      entries.NodupKeys →
      (storeEntries dst entries).lookup k
        = (entries.dlookup k).orElse (fun _ => dst.lookup k) := by
  intro entries
  induction entries with
  | nil => intro dst _; simp [storeEntries]
  | cons e rest ih =>
    intro dst hnd
    obtain ⟨a, b⟩ := e
    have hrest : rest.NodupKeys := (List.nodupKeys_cons.mp hnd).2
    have hnot : a ∉ rest.keys := (List.nodupKeys_cons.mp hnd).1
    have hstep : storeEntries dst (⟨a, b⟩ :: rest) = storeEntries (dst.insert a b) rest := rfl
    rw [hstep, ih (dst.insert a b) hrest]
    by_cases hk : k = a
    · subst hk
      rw [List.dlookup_eq_none.mpr hnot, List.dlookup_cons_eq, Finmap.lookup_insert]
      rfl
    · rw [List.dlookup_cons_ne _ _ hk, Finmap.lookup_insert_of_ne _ hk]

/-- The order in which the entries of a map are visited does not change what
the loop leaves. -/
theorem storeEntries_perm (dst : StrMap) (a b : AList (fun _ : String => String))
    (h : a.entries.Perm b.entries) :
    storeEntries dst a.entries = storeEntries dst b.entries := by
  apply Finmap.ext_lookup
  intro k
  rw [lookup_storeEntries k a.entries dst a.nodupKeys,
      lookup_storeEntries k b.entries dst b.nodupKeys,
      List.perm_dlookup k a.nodupKeys b.nodupKeys h]

/-- The whole loop `for k, v := range src { dst[k] = v }`.  Go visits the
entries of `src` in an unspecified order; every order gives the same map. -/
def rangeStore (dst : StrMap) (src : StrMap) : StrMap :=
  src.liftOn (fun entries => storeEntries dst entries.entries) (storeEntries_perm dst)

/-! ## The provider's methods -/

/-- The method `(*StandaloneProvider).ConfigureRun`. -/
def ConfigureRun (p : StandaloneProvider) (state : State) : Exit × State :=
  match p.runnercfg.Provider.Unpack with
  | .error err => (.returned (some err), state)
  | .ok pc =>
    let state := { state with RootURL := pc.RootURL }
    let state := { state with Credentials := { state.Credentials with ClientID := pc.ClientID } }
    let state :=
      { state with Credentials := { state.Credentials with AccessToken := pc.AccessToken } }
    let state := { state with WorkerPoolID := pc.WorkerPoolID }
    let state := { state with WorkerGroup := pc.WorkerGroup }
    let state := { state with WorkerID := pc.WorkerID }
    let state := { state with WorkerLocation := Finmap.singleton "cloud" "standalone" }
    let state := { state with ProviderMetadata := ∅ }
    match p.runnercfg.Provider.Data.lookup "workerLocation" with
    | some workerLocation =>
      match workerLocation with
      | .strMap m =>
        (.returned none, { state with WorkerLocation := rangeStore state.WorkerLocation m })
      | _ => (.panicked, state)
    | none => (.returned none, state)

/-- The method `(*StandaloneProvider).UseCachedRun`. -/
def UseCachedRun (_p : StandaloneProvider) (run : State) : Exit × State :=
  (.returned none, run)

/-- The method `(*StandaloneProvider).SetProtocol`; the result is the provider
after the call. -/
def SetProtocol {Protocol : Type} (p : StandaloneProvider) (_proto : Protocol) :
    StandaloneProvider :=
  p

/-- The method `(*StandaloneProvider).WorkerStarted`, with the provider after
the call. -/
def WorkerStarted (p : StandaloneProvider) : Exit × StandaloneProvider :=
  (.returned none, p)

/-- The method `(*StandaloneProvider).WorkerFinished`, with the provider after
the call. -/
def WorkerFinished (p : StandaloneProvider) : Exit × StandaloneProvider :=
  (.returned none, p)

/-- The constructor `New`. -/
def New (runnercfg : RunnerConfig) : StandaloneProvider × Option Error :=
  ({ runnercfg := runnercfg }, none)

/-- The state `ConfigureRun` has built when it reaches the `workerLocation`
lookup: lines 30 to 40 applied to the state it was handed. -/
def populated (pc : standaloneProviderConfig) (state : State) : State :=
  { RootURL := pc.RootURL,
    Credentials := { ClientID := pc.ClientID, AccessToken := pc.AccessToken,
                     Certificate := state.Credentials.Certificate },
    WorkerPoolID := pc.WorkerPoolID, WorkerGroup := pc.WorkerGroup, WorkerID := pc.WorkerID,
    WorkerLocation := Finmap.singleton "cloud" "standalone",
    ProviderMetadata := ∅ }

/-- The `workerLocation` entry of the configuration read as a string map: the
empty map when there is no entry, the map when the entry holds a
`map[string]string`, and nothing when the entry holds any other value. -/
def configuredLocation (p : StandaloneProvider) : Option StrMap :=
  match p.runnercfg.Provider.Data.lookup "workerLocation" with
  | none => some ∅
  | some (.strMap m) => some m
  | some _ => none

/-- The settings `Usage` lists as required. -/
def requiredSettings : List String :=
  ["rootURL", "clientID", "accessToken", "workerPoolID", "workerGroup", "workerID"]

/-! ## Example configurations -/

/-- The six required settings, all given. -/
def exampleData : Finmap (fun _ : String => Value) :=
  (((((Finmap.singleton "rootURL" (Value.str "https://tc.example.com")).insert
    "clientID" (.str "client")).insert "accessToken" (.str "token")).insert
    "workerPoolID" (.str "pool/type")).insert "workerGroup" (.str "group")).insert
    "workerID" (.str "worker-1")

/-- The settings value `exampleData` unpacks into. -/
def exampleSettings : standaloneProviderConfig :=
  { RootURL := "https://tc.example.com", ClientID := "client", AccessToken := "token",
    WorkerPoolID := "pool/type", WorkerGroup := "group", WorkerID := "worker-1" }

/-- A provider over the configuration document `data`. -/
def providerOf (data : Finmap (fun _ : String => Value)) : StandaloneProvider :=
  { runnercfg := { Provider := { ProviderType := "standalone", Data := data } } }

/-- Complete settings and no location data. -/
def plainProvider : StandaloneProvider := providerOf exampleData

/-- Complete settings and two custom location entries. -/
def locatedProvider : StandaloneProvider :=
  providerOf (exampleData.insert "workerLocation"
    (.strMap ((Finmap.singleton "region" "underworld").insert "zone" "666")))

/-- Complete settings and a location map that has its own `"cloud"` entry. -/
def cloudProvider : StandaloneProvider :=
  providerOf (exampleData.insert "workerLocation" (.strMap (Finmap.singleton "cloud" "aws")))

/-- Complete settings and a location entry that is a plain string. -/
def stringLocationProvider : StandaloneProvider :=
  providerOf (exampleData.insert "workerLocation" (.str "us-east-1"))

/-- Complete settings and a location entry that is a list. -/
def listLocationProvider : StandaloneProvider :=
  providerOf (exampleData.insert "workerLocation" (.list [.str "us-east-1"]))

/-- Complete settings and a location entry that is a map with a value that is
not a string. -/
def numberLocationProvider : StandaloneProvider :=
  providerOf (exampleData.insert "workerLocation" (.ifaceMap [("rack", .num 7)]))

/-- The access token is missing. -/
def tokenlessProvider : StandaloneProvider := providerOf (exampleData.erase "accessToken")

/-- Every setting is there, the root URL as the empty string. -/
def emptyRootProvider : StandaloneProvider :=
  providerOf (exampleData.insert "rootURL" (.str ""))

/-- A state as a cache of an earlier run leaves it, every field set. -/
def staleState : State :=
  { RootURL := "https://old.example.com",
    Credentials := { ClientID := "old-client", AccessToken := "old-token",
                     Certificate := "old-certificate" },
    WorkerPoolID := "old/pool", WorkerGroup := "old-group", WorkerID := "old-worker",
    WorkerLocation := Finmap.singleton "cloud" "old-cloud",
    ProviderMetadata := Finmap.singleton "instance" "i-123" }

/-- The state a successful call on `plainProvider` leaves from a fresh state. -/
def plainState : State :=
  { RootURL := "https://tc.example.com",
    Credentials := { ClientID := "client", AccessToken := "token", Certificate := "" },
    WorkerPoolID := "pool/type", WorkerGroup := "group", WorkerID := "worker-1",
    WorkerLocation := Finmap.singleton "cloud" "standalone",
    ProviderMetadata := ∅ }

/-- The state a successful call on `locatedProvider` leaves from a fresh
state. -/
def locatedState : State :=
  { plainState with
    WorkerLocation :=
      ((Finmap.singleton "cloud" "standalone").insert "region" "underworld").insert "zone" "666" }

/-! ## Reading the loop's result -/

theorem lookup_rangeStore (dst src : StrMap) (k : String) :
    (rangeStore dst src).lookup k = (src.lookup k).orElse (fun _ => dst.lookup k) := by
  induction src using Finmap.induction_on with
  | _ entries =>
    simp only [rangeStore, Finmap.liftOn_toFinmap, Finmap.lookup_toFinmap]
    exact lookup_storeEntries k entries.entries dst entries.nodupKeys

theorem rangeStore_empty (dst : StrMap) : rangeStore dst ∅ = dst := by
  apply Finmap.ext_lookup
  intro k
  rw [lookup_rangeStore, Finmap.lookup_empty]
  rfl

/-! ## The four ways through `ConfigureRun` -/

theorem configureRun_of_unpack_error (p : StandaloneProvider) (state : State) (err : Error)
    (h : p.runnercfg.Provider.Unpack = .error err) :
    ConfigureRun p state = (.returned (some err), state) := by
  unfold ConfigureRun
  rw [h]

theorem configureRun_of_absent (p : StandaloneProvider) (state : State)
    (pc : standaloneProviderConfig) (h : p.runnercfg.Provider.Unpack = .ok pc)
    (hloc : p.runnercfg.Provider.Data.lookup "workerLocation" = none) :
    ConfigureRun p state = (.returned none, populated pc state) := by
  unfold ConfigureRun
  rw [h]
  simp only [hloc]
  rfl

theorem configureRun_of_strMap (p : StandaloneProvider) (state : State)
    (pc : standaloneProviderConfig) (m : StrMap) (h : p.runnercfg.Provider.Unpack = .ok pc)
    (hloc : p.runnercfg.Provider.Data.lookup "workerLocation" = some (.strMap m)) :
    ConfigureRun p state
      = (.returned none,
          { populated pc state with
            WorkerLocation := rangeStore (Finmap.singleton "cloud" "standalone") m }) := by
  unfold ConfigureRun
  rw [h]
  simp only [hloc]
  rfl

theorem configureRun_of_other (p : StandaloneProvider) (state : State)
    (pc : standaloneProviderConfig) (v : Value) (h : p.runnercfg.Provider.Unpack = .ok pc)
    (hloc : p.runnercfg.Provider.Data.lookup "workerLocation" = some v)
    (hv : ∀ m, v ≠ .strMap m) :
    ConfigureRun p state = (.panicked, populated pc state) := by
  unfold ConfigureRun
  rw [h]
  simp only [hloc]
  cases v with
  | strMap m => exact absurd rfl (hv m)
  | _ => rfl

/-- Whenever the configuration's location reads as a string map `m`, the call
returns no error and the location it leaves is the loop's result. -/
theorem configureRun_of_location (p : StandaloneProvider) (state : State)
    (pc : standaloneProviderConfig) (m : StrMap) (h : p.runnercfg.Provider.Unpack = .ok pc)
    (hm : configuredLocation p = some m) :
    ConfigureRun p state
      = (.returned none,
          { populated pc state with
            WorkerLocation := rangeStore (Finmap.singleton "cloud" "standalone") m }) := by
  unfold configuredLocation at hm
  cases hloc : p.runnercfg.Provider.Data.lookup "workerLocation" with
  | none =>
    rw [hloc] at hm
    cases hm
    rw [configureRun_of_absent p state pc h hloc, rangeStore_empty]
    rfl
  | some v =>
    rw [hloc] at hm
    cases v with
    | strMap m' =>
      cases hm
      exact configureRun_of_strMap p state pc m h hloc
    | _ => cases hm

/-- A call that returns no error had a configuration that unpacks and whose
location reads as a string map. -/
theorem configureRun_returned_none (p : StandaloneProvider) (state state' : State)
    (h : ConfigureRun p state = (.returned none, state')) :
    ∃ pc m, p.runnercfg.Provider.Unpack = .ok pc ∧ configuredLocation p = some m := by
  cases hu : p.runnercfg.Provider.Unpack with
  | error err =>
    rw [configureRun_of_unpack_error p state err hu] at h
    cases h
  | ok pc =>
    cases hm : configuredLocation p with
    | some m => exact ⟨pc, m, rfl, rfl⟩
    | none =>
      exfalso
      unfold configuredLocation at hm
      cases hloc : p.runnercfg.Provider.Data.lookup "workerLocation" with
      | none => rw [hloc] at hm; cases hm
      | some v =>
        rw [hloc] at hm
        have hv : ∀ m, v ≠ .strMap m := by
          intro m hvm
          rw [hvm] at hm
          cases hm
        rw [configureRun_of_other p state pc v hu hloc hv] at h
        cases h

/-! ## What unpacking accepts -/

theorem unpackField_ok (data : Finmap (fun _ : String => Value)) (name s : String) :
    unpackField data name = .ok s ↔ data.lookup name = some (.str s) := by
  unfold unpackField
  cases h : data.lookup name with
  | none => simp
  | some v => cases v <;> simp

/-- A configuration that unpacks holds each of the six settings as a string,
and the settings value carries those strings. -/
theorem unpack_ok (c : ProviderConfig) (pc : standaloneProviderConfig)
    (h : c.Unpack = .ok pc) :
    c.Data.lookup "rootURL" = some (.str pc.RootURL) ∧
    c.Data.lookup "clientID" = some (.str pc.ClientID) ∧
    c.Data.lookup "accessToken" = some (.str pc.AccessToken) ∧
    c.Data.lookup "workerPoolID" = some (.str pc.WorkerPoolID) ∧
    c.Data.lookup "workerGroup" = some (.str pc.WorkerGroup) ∧
    c.Data.lookup "workerID" = some (.str pc.WorkerID) := by
  unfold ProviderConfig.Unpack at h
  cases h1 : unpackField c.Data "rootURL" with
  | error e => simp [h1, bind, Except.bind] at h
  | ok v1 =>
  cases h2 : unpackField c.Data "clientID" with
  | error e => simp [h1, h2, bind, Except.bind] at h
  | ok v2 =>
  cases h3 : unpackField c.Data "accessToken" with
  | error e => simp [h1, h2, h3, bind, Except.bind] at h
  | ok v3 =>
  cases h4 : unpackField c.Data "workerPoolID" with
  | error e => simp [h1, h2, h3, h4, bind, Except.bind] at h
  | ok v4 =>
  cases h5 : unpackField c.Data "workerGroup" with
  | error e => simp [h1, h2, h3, h4, h5, bind, Except.bind] at h
  | ok v5 =>
  cases h6 : unpackField c.Data "workerID" with
  | error e => simp [h1, h2, h3, h4, h5, h6, bind, Except.bind] at h
  | ok v6 =>
  simp [h1, h2, h3, h4, h5, h6, bind, Except.bind, pure, Except.pure] at h
  subst h
  exact ⟨(unpackField_ok _ _ _).mp h1, (unpackField_ok _ _ _).mp h2, (unpackField_ok _ _ _).mp h3,
    (unpackField_ok _ _ _).mp h4, (unpackField_ok _ _ _).mp h5, (unpackField_ok _ _ _).mp h6⟩

/-- A required setting that is absent, or is not a string, fails unpacking. -/
theorem unpack_error_of_not_string (c : ProviderConfig) (name : String)
    (hname : name ∈ requiredSettings) (h : ∀ s, c.Data.lookup name ≠ some (.str s)) :
    ∃ err, c.Unpack = .error err := by
  cases hu : c.Unpack with
  | error err => exact ⟨err, rfl⟩
  | ok pc =>
    exfalso
    obtain ⟨h1, h2, h3, h4, h5, h6⟩ := unpack_ok c pc hu
    simp only [requiredSettings, List.mem_cons, List.mem_singleton, List.not_mem_nil,
      or_false] at hname
    rcases hname with rfl | rfl | rfl | rfl | rfl | rfl
    · exact h _ h1
    · exact h _ h2
    · exact h _ h3
    · exact h _ h4
    · exact h _ h5
    · exact h _ h6

/-! ## The location map a successful call leaves -/

/-- The loop started from `{"cloud": "standalone"}`, read at `"cloud"`: the
configuration's own `"cloud"` entry when it has one, `"standalone"` otherwise. -/
theorem lookup_cloud_rangeStore (m : StrMap) :
    (rangeStore (Finmap.singleton "cloud" "standalone") m).lookup "cloud"
      = (m.lookup "cloud").orElse (fun _ => some "standalone") := by
  rw [lookup_rangeStore, Finmap.lookup_singleton_eq]

theorem cloud_mem_rangeStore (m : StrMap) :
    "cloud" ∈ rangeStore (Finmap.singleton "cloud" "standalone") m := by
  rw [Finmap.mem_iff, lookup_cloud_rangeStore]
  cases m.lookup "cloud" with
  | none => exact ⟨"standalone", rfl⟩
  | some v => exact ⟨v, rfl⟩

/-- With no `"cloud"` entry in the source, the loop started from
`{"cloud": "standalone"}` leaves the source extended by that entry. -/
theorem rangeStore_singleton_of_not_mem (m : StrMap) (h : "cloud" ∉ m) :
    rangeStore (Finmap.singleton "cloud" "standalone") m = m.insert "cloud" "standalone" := by
  apply Finmap.ext_lookup
  intro k
  rw [lookup_rangeStore]
  by_cases hk : k = "cloud"
  · subst hk
    rw [Finmap.lookup_eq_none.mpr h, Finmap.lookup_singleton_eq, Finmap.lookup_insert]
    rfl
  · rw [Finmap.lookup_insert_of_ne _ hk]
    cases hl : m.lookup k with
    | some v => rfl
    | none =>
      have hnot : k ∉ (Finmap.singleton "cloud" "standalone" : StrMap) := by
        rw [Finmap.mem_singleton]
        exact hk
      rw [Option.orElse, Finmap.lookup_eq_none.mpr hnot]

/-- The result of a call depends on the state it is handed through the
certificate only. -/
theorem populated_congr (pc : standaloneProviderConfig) (s t : State)
    (h : s.Credentials.Certificate = t.Credentials.Certificate) :
    populated pc s = populated pc t := by
  unfold populated
  rw [h]

/-! ## The claims -/

/-- C1, evaluated where the code departs from it: the configuration's location
map has its own `"cloud"` entry, the call returns no error, and the location it
leaves maps `"cloud"` to the configured value, not to `"standalone"`. -/
theorem configureRun_cloud_entry_overwritten :
    ConfigureRun cloudProvider State.fresh
      = (.returned none, { plainState with WorkerLocation := Finmap.singleton "cloud" "aws" }) ∧
    (ConfigureRun cloudProvider State.fresh).2.WorkerLocation.lookup "cloud"
      ≠ some "standalone" := by
  decide

/-- C2: when `ConfigureRun` returns no error and the configuration's location
map `m` (empty when there is no entry) has no `"cloud"` key, the location it
leaves is `m` extended by `"cloud" ↦ "standalone"`: every entry of `m` is there
with its value, there is no other key, and for the empty `m` the result is
exactly `{"cloud": "standalone"}`. -/
theorem configureRun_location_exact (p : StandaloneProvider) (state state' : State) (m : StrMap)
    (hrun : ConfigureRun p state = (.returned none, state'))
    (hm : configuredLocation p = some m) (hcloud : "cloud" ∉ m) :
    state'.WorkerLocation = m.insert "cloud" "standalone" ∧
    (∀ k v, m.lookup k = some v → state'.WorkerLocation.lookup k = some v) ∧
    (∀ k, k ∈ state'.WorkerLocation ↔ k = "cloud" ∨ k ∈ m) ∧
    (m = ∅ → state'.WorkerLocation = Finmap.singleton "cloud" "standalone") := by
  obtain ⟨pc, m', hpc, hm'⟩ := configureRun_returned_none p state state' hrun
  rw [configureRun_of_location p state pc m hpc hm] at hrun
  have hstate := (Prod.mk.inj hrun).2
  have hloc : state'.WorkerLocation = m.insert "cloud" "standalone" := by
    rw [← hstate]
    exact rangeStore_singleton_of_not_mem m hcloud
  refine ⟨hloc, ?_, ?_, ?_⟩
  · intro k v hkv
    have hk : k ≠ "cloud" := by
      rintro rfl
      rw [Finmap.lookup_eq_none.mpr hcloud] at hkv
      cases hkv
    rw [hloc, Finmap.lookup_insert_of_ne _ hk, hkv]
  · intro k
    rw [hloc, Finmap.mem_insert]
  · intro hempty
    rw [hloc, hempty]
    rfl

theorem configureRun_location_exact_witness :
    ConfigureRun locatedProvider State.fresh = (.returned none, locatedState) ∧
    locatedState.WorkerLocation
      = (((Finmap.singleton "region" "underworld").insert "zone" "666").insert
          "cloud" "standalone" : StrMap) :=
  ⟨by decide,
   (configureRun_location_exact locatedProvider State.fresh locatedState
      ((Finmap.singleton "region" "underworld").insert "zone" "666")
      (by decide) (by decide) (by decide)).1⟩

/-- C3 as stated fails: the provider section unpacks into `exampleSettings`,
the `workerLocation` entry is a plain string, and `ConfigureRun` does not
return: the type assertion on line 43 panics. -/
theorem configureRun_unpacked_yet_panics :
    stringLocationProvider.runnercfg.Provider.Unpack = .ok exampleSettings ∧
    (ConfigureRun stringLocationProvider State.fresh).1 = .panicked ∧
    (ConfigureRun stringLocationProvider State.fresh).1 ≠ .returned none :=
  ⟨rfl, by decide, by decide⟩

/-- C3, amended: when the provider section unpacks into `pc` and the
`workerLocation` entry is absent or holds a `map[string]string`,
`ConfigureRun` returns no error and leaves `RootURL`, `Credentials.ClientID`,
`Credentials.AccessToken`, `WorkerPoolID`, `WorkerGroup` and `WorkerID` equal to
the fields of `pc`. -/
theorem configureRun_copies_settings (p : StandaloneProvider) (state : State)
    (pc : standaloneProviderConfig) (m : StrMap)
    (hpc : p.runnercfg.Provider.Unpack = .ok pc) (hm : configuredLocation p = some m) :
    (ConfigureRun p state).1 = .returned none ∧
    (ConfigureRun p state).2.RootURL = pc.RootURL ∧
    (ConfigureRun p state).2.Credentials.ClientID = pc.ClientID ∧
    (ConfigureRun p state).2.Credentials.AccessToken = pc.AccessToken ∧
    (ConfigureRun p state).2.WorkerPoolID = pc.WorkerPoolID ∧
    (ConfigureRun p state).2.WorkerGroup = pc.WorkerGroup ∧
    (ConfigureRun p state).2.WorkerID = pc.WorkerID := by
  rw [configureRun_of_location p state pc m hpc hm]
  exact ⟨rfl, rfl, rfl, rfl, rfl, rfl, rfl⟩

theorem configureRun_copies_settings_witness :
    (ConfigureRun locatedProvider staleState).1 = .returned none ∧
    (ConfigureRun locatedProvider staleState).2.RootURL = "https://tc.example.com" ∧
    (ConfigureRun locatedProvider staleState).2.Credentials.ClientID = "client" ∧
    (ConfigureRun locatedProvider staleState).2.Credentials.AccessToken = "token" ∧
    (ConfigureRun locatedProvider staleState).2.WorkerPoolID = "pool/type" ∧
    (ConfigureRun locatedProvider staleState).2.WorkerGroup = "group" ∧
    (ConfigureRun locatedProvider staleState).2.WorkerID = "worker-1" :=
  configureRun_copies_settings locatedProvider staleState exampleSettings
    ((Finmap.singleton "region" "underworld").insert "zone" "666") rfl (by decide)

/-- C4: when unpacking the provider configuration fails with `err`,
`ConfigureRun` returns `err` and the state after the call is the state before
it, field for field. -/
theorem configureRun_unpack_error_unchanged (p : StandaloneProvider) (state : State)
    (err : Error) (herr : p.runnercfg.Provider.Unpack = .error err) :
    ConfigureRun p state = (.returned (some err), state) :=
  configureRun_of_unpack_error p state err herr

theorem configureRun_unpack_error_unchanged_witness :
    tokenlessProvider.runnercfg.Provider.Unpack = .error (.notFound "accessToken") ∧
    ConfigureRun tokenlessProvider staleState
      = (.returned (some (.notFound "accessToken")), staleState) :=
  ⟨rfl, configureRun_unpack_error_unchanged tokenlessProvider staleState
    (.notFound "accessToken") rfl⟩

/-- C5 as stated fails: every required setting is in the configuration, the
root URL as the empty string; `ConfigureRun` returns no error and leaves
`RootURL` empty. -/
theorem configureRun_empty_root_url :
    (ConfigureRun emptyRootProvider State.fresh).1 = .returned none ∧
    (ConfigureRun emptyRootProvider State.fresh).2.RootURL = "" := by
  decide

/-- C5, amended: when `ConfigureRun` returns no error, each of `RootURL`,
`Credentials.ClientID`, `Credentials.AccessToken`, `WorkerPoolID`,
`WorkerGroup` and `WorkerID` is the string the configuration holds under
`rootURL`, `clientID`, `accessToken`, `workerPoolID`, `workerGroup` and
`workerID` (so each setting is present, though its string may be empty), and
`WorkerLocation` is not empty: it has the key `"cloud"`. -/
theorem configureRun_fields_present (p : StandaloneProvider) (state state' : State)
    (hrun : ConfigureRun p state = (.returned none, state')) :
    p.runnercfg.Provider.Data.lookup "rootURL" = some (.str state'.RootURL) ∧
    p.runnercfg.Provider.Data.lookup "clientID" = some (.str state'.Credentials.ClientID) ∧
    p.runnercfg.Provider.Data.lookup "accessToken"
      = some (.str state'.Credentials.AccessToken) ∧
    p.runnercfg.Provider.Data.lookup "workerPoolID" = some (.str state'.WorkerPoolID) ∧
    p.runnercfg.Provider.Data.lookup "workerGroup" = some (.str state'.WorkerGroup) ∧
    p.runnercfg.Provider.Data.lookup "workerID" = some (.str state'.WorkerID) ∧
    "cloud" ∈ state'.WorkerLocation ∧ state'.WorkerLocation ≠ ∅ := by
  obtain ⟨pc, m, hpc, hm⟩ := configureRun_returned_none p state state' hrun
  rw [configureRun_of_location p state pc m hpc hm] at hrun
  have hstate := (Prod.mk.inj hrun).2
  obtain ⟨h1, h2, h3, h4, h5, h6⟩ := unpack_ok p.runnercfg.Provider pc hpc
  have hmem : "cloud" ∈ state'.WorkerLocation := by
    rw [← hstate]
    exact cloud_mem_rangeStore m
  refine ⟨?_, ?_, ?_, ?_, ?_, ?_, hmem, ?_⟩
  · rw [← hstate]; exact h1
  · rw [← hstate]; exact h2
  · rw [← hstate]; exact h3
  · rw [← hstate]; exact h4
  · rw [← hstate]; exact h5
  · rw [← hstate]; exact h6
  · intro hempty
    rw [hempty] at hmem
    exact Finmap.not_mem_empty hmem

theorem configureRun_fields_present_witness :
    ConfigureRun locatedProvider State.fresh = (.returned none, locatedState) ∧
    locatedProvider.runnercfg.Provider.Data.lookup "accessToken"
      = some (.str locatedState.Credentials.AccessToken) ∧
    "cloud" ∈ locatedState.WorkerLocation :=
  ⟨by decide,
   (configureRun_fields_present locatedProvider State.fresh locatedState (by decide)).2.2.1,
   (configureRun_fields_present locatedProvider State.fresh locatedState (by decide)).2.2.2.2.2.2.1⟩

/-- C6, evaluated where the code departs from it: the same configuration is
run on a fresh state and on a state left by an earlier run; both calls return
no error, the second keeps the earlier certificate, and the two resulting
states differ. -/
theorem configureRun_keeps_certificate :
    ConfigureRun plainProvider State.fresh = (.returned none, plainState) ∧
    (ConfigureRun plainProvider staleState).1 = .returned none ∧
    (ConfigureRun plainProvider staleState).2.Credentials.Certificate = "old-certificate" ∧
    (ConfigureRun plainProvider staleState).2 ≠ (ConfigureRun plainProvider State.fresh).2 := by
  decide

/-- C7: when `ConfigureRun` on a fresh state returns no error and leaves the
state `first`, then `ConfigureRun` with the same configuration on another fresh
state, and on `first` itself, returns no error and leaves a state equal to
`first`. -/
theorem configureRun_idempotent (p : StandaloneProvider) (first : State)
    (hrun : ConfigureRun p State.fresh = (.returned none, first)) :
    ConfigureRun p State.fresh = (.returned none, first) ∧
    ConfigureRun p first = (.returned none, first) := by
  refine ⟨hrun, ?_⟩
  obtain ⟨pc, m, hpc, hm⟩ := configureRun_returned_none p State.fresh first hrun
  rw [configureRun_of_location p State.fresh pc m hpc hm] at hrun
  have hstate := (Prod.mk.inj hrun).2
  have hcert : first.Credentials.Certificate = State.fresh.Credentials.Certificate := by
    rw [← hstate]
    rfl
  rw [configureRun_of_location p first pc m hpc hm, populated_congr pc first State.fresh hcert,
    hstate]

theorem configureRun_idempotent_witness :
    ConfigureRun locatedProvider State.fresh = (.returned none, locatedState) ∧
    ConfigureRun locatedProvider locatedState = (.returned none, locatedState) :=
  configureRun_idempotent locatedProvider locatedState (by decide)

/-- C8: `UseCachedRun` returns no error on every state and every configuration,
and the state after the call is the state before it. -/
theorem useCachedRun_accepts_unchanged (p : StandaloneProvider) (run : State) :
    (UseCachedRun p run).1 = .returned none ∧ (UseCachedRun p run).2 = run :=
  ⟨rfl, rfl⟩

/-- C9, evaluated where the code departs from it: with every required setting
given and a `workerLocation` entry that is a plain string, a list, or a map
with a value that is not a string, `ConfigureRun` panics instead of returning
an error. -/
theorem configureRun_malformed_location_panics :
    (ConfigureRun stringLocationProvider State.fresh).1 = .panicked ∧
    (ConfigureRun listLocationProvider State.fresh).1 = .panicked ∧
    (ConfigureRun numberLocationProvider State.fresh).1 = .panicked := by
  decide

/-- C10: `WorkerStarted` and `WorkerFinished` return no error; `SetProtocol`,
`WorkerStarted` and `WorkerFinished` leave the provider as it was; and
`ConfigureRun` on the provider after the three hooks gives what it gives on the
provider before them. -/
theorem hooks_are_noops {Protocol : Type} (p : StandaloneProvider) (proto : Protocol) :
    (WorkerStarted p).1 = .returned none ∧ (WorkerFinished p).1 = .returned none ∧
    SetProtocol p proto = p ∧ (WorkerStarted p).2 = p ∧ (WorkerFinished p).2 = p ∧
    ∀ state : State,
      ConfigureRun (WorkerFinished (WorkerStarted (SetProtocol p proto)).2).2 state
        = ConfigureRun p state :=
  ⟨rfl, rfl, rfl, rfl, rfl, fun _ => rfl⟩

end Standalone
